import Mathlib

/-!
Verification of the traffic-light controller in `ProjetoFinal.c` (Raspberry Pi
Pico semaphore).  The program keeps a global phase variable `estado`
(0 = red/STOP, 1 = yellow/CAUTION, 2 = green/GO).  `controlar_semaforo`
switches on `estado`, drives the LED channels, the buzzer, the OLED display and
the LED-matrix countdown, then advances `estado`; `main` runs it once at
startup and then forever in a loop that prints a status line and sleeps one
second between calls.

The shallow embedding records every peripheral command issued by a call as an
explicit event list, and the phase variable as a `Nat`, exactly mirroring the
C source.  A small device-state semantics (`Outputs`, `applyEv`) replays event
lists to recover the settled output state of each phase.
-/

/-- The three GPIO LED channels written by the controller
(`LED_R` = pin 13, `LED_G` = pin 11, `LED_B` = pin 12). -/
inductive Ch where
  | R
  | G
  | B
deriving DecidableEq, Repr

/-- One peripheral command issued by the program, in source order:
`gpio_put` on an LED channel, `disable_pwm(BUZZER)`, `set_pwm_pin(BUZZER, f, d)`,
the SSD1306 display calls, `print_num` on the LED matrix, `sleep_ms`,
`clear_leds`, and the status `printf` of the main loop. -/
inductive Ev where
  | gpioPut (c : Ch) (v : Bool)
  | buzzerOff
  | buzzerOn (freq duty : Nat)
  | oledFill
  | oledDraw (s : String) (x y : Nat)
  | oledSend
  | printNum (n : Nat)
  | sleep (ms : Nat)
  | clearLeds
  | status (estado : Nat)
deriving DecidableEq, Repr

/-- Phase identifier STOP: `estado = 0`, the red phase. -/
def STOP : Nat := 0

/-- Phase identifier CAUTION: `estado = 1`, the yellow phase. -/
def CAUTION : Nat := 1

/-- Phase identifier GO: `estado = 2`, the green phase. -/
def GO : Nat := 2

/-- The countdown loop `for(int i = d; i > 0; i--){ print_num(i, pio, sm); sleep_ms(1000); }`:
the events it issues, one render followed by one one-second wait per step. -/
def countdown : Nat → List Ev
  | 0 => []
  | n + 1 => Ev.printNum (n + 1) :: Ev.sleep 1000 :: countdown n

/-- `controlar_semaforo`: given the current `estado`, the list of peripheral
commands the call issues, the new value of `estado`, and the returned `bool`.
Each branch is transcribed literally from the C switch. -/
def controlar_semaforo (estado : Nat) : List Ev × Nat × Bool :=
  match estado with
  | 0 =>
      ([Ev.gpioPut Ch.R false, Ev.gpioPut Ch.G false, Ev.gpioPut Ch.B false,
        Ev.buzzerOff,
        Ev.gpioPut Ch.R true,
        Ev.oledFill, Ev.oledDraw "Proibido a" 5 20, Ev.oledDraw "passagem" 5 40,
        Ev.oledSend]
        ++ countdown 3 ++ [Ev.clearLeds],
       1, true)
  | 1 =>
      ([Ev.gpioPut Ch.R true, Ev.gpioPut Ch.G true, Ev.gpioPut Ch.B false,
        Ev.oledFill, Ev.oledDraw "Atencao!" 5 20, Ev.oledSend]
        ++ countdown 3 ++ [Ev.clearLeds],
       2, true)
  | 2 =>
      ([Ev.gpioPut Ch.R false, Ev.gpioPut Ch.G true, Ev.gpioPut Ch.B false,
        Ev.buzzerOn 300 300,
        Ev.oledFill, Ev.oledDraw "Permitido a" 5 20, Ev.oledDraw "passagem" 5 40,
        Ev.oledSend]
        ++ countdown 6 ++ [Ev.clearLeds],
       0, true)
  | _ => ([], estado, false)

/-- Settled state of the output peripherals: the three LED channels, whether
the buzzer PWM is enabled, and the digit currently shown on the LED matrix. -/
structure Outputs where
  ledR : Bool
  ledG : Bool
  ledB : Bool
  buzzer : Bool
  matrixDigit : Option Nat
deriving DecidableEq, Repr

/-- Output state at power-up: all GPIO outputs low, buzzer PWM disabled,
matrix blank. -/
def initOutputs : Outputs :=
  { ledR := false, ledG := false, ledB := false, buzzer := false, matrixDigit := none }

/-- Effect of a single peripheral command on the output state.  Display
writes, waits and the status print do not change these outputs. -/
def applyEv (o : Outputs) : Ev → Outputs
  | Ev.gpioPut Ch.R v => { o with ledR := v }
  | Ev.gpioPut Ch.G v => { o with ledG := v }
  | Ev.gpioPut Ch.B v => { o with ledB := v }
  | Ev.buzzerOff => { o with buzzer := false }
  | Ev.buzzerOn _ _ => { o with buzzer := true }
  | Ev.printNum n => { o with matrixDigit := some n }
  | Ev.clearLeds => { o with matrixDigit := none }
  | _ => o

/-- Replay a list of commands on an output state. -/
def applyEvs (o : Outputs) (es : List Ev) : Outputs :=
  es.foldl applyEv o

/-- The trace of `n` successive calls to `controlar_semaforo` starting from
the initial `estado = 0`: all events issued, and the final `estado`. -/
def callsTrace : Nat → List Ev × Nat
  | 0 => ([], 0)
  | n + 1 =>
      ((callsTrace n).1 ++ (controlar_semaforo (callsTrace n).2).1,
       (controlar_semaforo (callsTrace n).2).2.1)

/-- `estado` after `n` calls to `controlar_semaforo` from the initial state. -/
def stateAfter (n : Nat) : Nat := (callsTrace n).2

/-- Settled output state after `n` calls from power-up. -/
def outputsAfter (n : Nat) : Outputs := applyEvs initOutputs (callsTrace n).1

/-- Digits rendered on the countdown matrix by a list of commands, in order. -/
def rendered (es : List Ev) : List Nat :=
  es.filterMap fun e =>
    match e with
    | Ev.printNum n => some n
    | _ => none

/-- The descending sequence `d, d-1, …, 1` the spec expects the countdown
sequencer to render. -/
def descending : Nat → List Nat
  | 0 => []
  | n + 1 => (n + 1) :: descending n

/-- Number of one-second (`sleep_ms(1000)`) wait calls in a command list. -/
def waitCount (es : List Ev) : Nat :=
  (es.filter fun e => e == Ev.sleep 1000).length

/-- Number of buzzer commands (either `set_pwm_pin(BUZZER, …)` or
`disable_pwm(BUZZER)`) in a command list. -/
def buzzerCmdCount (es : List Ev) : Nat :=
  (es.filter fun e =>
    match e with
    | Ev.buzzerOff => true
    | Ev.buzzerOn _ _ => true
    | _ => false).length

/-- Number of writes that drive the blue channel high in a command list. -/
def blueHighCount (es : List Ev) : Nat :=
  (es.filter fun e => e == Ev.gpioPut Ch.B true).length

/-- Number of status-line `printf` events in a command list. -/
def statusCount (es : List Ev) : Nat :=
  (es.filter fun e =>
    match e with
    | Ev.status _ => true
    | _ => false).length

/-- Number of completed phase executions in a command list, counted by the
`clear_leds` call that ends every phase branch. -/
def phaseExecCount (es : List Ev) : Nat :=
  (es.filter fun e =>
    match e with
    | Ev.clearLeds => true
    | _ => false).length

/-- The main loop of `main`: the startup call `controlar_semaforo(NULL)` on
`estado = 0`, then `n` iterations of
`printf(status); sleep_ms(1000); controlar_semaforo(NULL);`.
Returns the whole event trace and the current `estado`. -/
def mainRun : Nat → List Ev × Nat
  | 0 => ((controlar_semaforo 0).1, (controlar_semaforo 0).2.1)
  | n + 1 =>
      ((mainRun n).1
         ++ Ev.status (mainRun n).2 :: Ev.sleep 1000
             :: (controlar_semaforo (mainRun n).2).1,
       (controlar_semaforo (mainRun n).2).2.1)

/-- The first four commands of the STOP branch: all three LED channels driven
low and the buzzer disabled. -/
def deactivateAll : List Ev :=
  [Ev.gpioPut Ch.R false, Ev.gpioPut Ch.G false, Ev.gpioPut Ch.B false, Ev.buzzerOff]

/-- The indicator pattern `(red, green, blue)` the spec assigns to each phase:
red only for STOP, red+green for CAUTION, green only for GO. -/
def indicator_pattern : Nat → Bool × Bool × Bool
  | 0 => (true, false, false)
  | 1 => (true, true, false)
  | 2 => (false, true, false)
  | _ => (false, false, false)

/-- The `(red, green, blue)` channel values of an output state. -/
def ledTriple (o : Outputs) : Bool × Bool × Bool :=
  (o.ledR, o.ledG, o.ledB)

/-! ### Helper lemmas -/

theorem stateAfter_succ (n : Nat) :
    stateAfter (n + 1) = (controlar_semaforo (stateAfter n)).2.1 := rfl

theorem stateAfter_mod (n : Nat) : stateAfter n = n % 3 := by
  induction n with
  | zero => rfl
  | succ n ih =>
      have h3 : n % 3 = 0 ∨ n % 3 = 1 ∨ n % 3 = 2 := by omega
      rw [stateAfter_succ, ih]
      rcases h3 with h | h | h <;> rw [h] <;> simp [controlar_semaforo] <;> omega

theorem outputsAfter_succ (n : Nat) :
    outputsAfter (n + 1)
      = applyEvs (outputsAfter n) (controlar_semaforo (stateAfter n)).1 := by
  simp [outputsAfter, callsTrace, applyEvs, stateAfter, List.foldl_append]

theorem buzzer_phase0 (o : Outputs) :
    (applyEvs o (controlar_semaforo 0).1).buzzer = false := rfl

theorem buzzer_phase1 (o : Outputs) :
    (applyEvs o (controlar_semaforo 1).1).buzzer = o.buzzer := rfl

theorem buzzer_phase2 (o : Outputs) :
    (applyEvs o (controlar_semaforo 2).1).buzzer = true := rfl

theorem leds_phase0 (o : Outputs) :
    ledTriple (applyEvs o (controlar_semaforo 0).1) = (true, false, false) := rfl

theorem leds_phase1 (o : Outputs) :
    ledTriple (applyEvs o (controlar_semaforo 1).1) = (true, true, false) := rfl

theorem leds_phase2 (o : Outputs) :
    ledTriple (applyEvs o (controlar_semaforo 2).1) = (false, true, false) := rfl

theorem buzzer_after (n : Nat) :
    (outputsAfter n).buzzer = decide (n % 3 = 0 ∧ n ≠ 0) := by
  induction n with
  | zero => rfl
  | succ n ih =>
      rw [outputsAfter_succ, stateAfter_mod]
      have h3 : n % 3 = 0 ∨ n % 3 = 1 ∨ n % 3 = 2 := by omega
      rcases h3 with h | h | h <;> rw [h]
      · have hr : (n + 1) % 3 ≠ 0 := by omega
        simp [buzzer_phase0, hr]
      · have hr : (n + 1) % 3 ≠ 0 := by omega
        have hn : ¬ (n % 3 = 0 ∧ n ≠ 0) := by omega
        rw [buzzer_phase1, ih]
        simp [hr, hn]
      · have hr : (n + 1) % 3 = 0 ∧ n + 1 ≠ 0 := by omega
        simp [buzzer_phase2, hr]

theorem ledB_phase0 (o : Outputs) :
    (applyEvs o (controlar_semaforo 0).1).ledB = false := rfl

theorem ledB_phase1 (o : Outputs) :
    (applyEvs o (controlar_semaforo 1).1).ledB = false := rfl

theorem ledB_phase2 (o : Outputs) :
    (applyEvs o (controlar_semaforo 2).1).ledB = false := rfl

theorem countdown_eq_flatten (d : Nat) :
    countdown d = ((descending d).map fun k => [Ev.printNum k, Ev.sleep 1000]).flatten := by
  induction d with
  | zero => rfl
  | succ d ih => simp [countdown, descending, ih]

theorem rendered_countdown (d : Nat) : rendered (countdown d) = descending d := by
  induction d with
  | zero => rfl
  | succ d ih => simp [countdown, descending, rendered] at ih ⊢; exact ih

theorem descending_length (d : Nat) : (descending d).length = d := by
  induction d with
  | zero => rfl
  | succ d ih => simp [descending, ih]

theorem descending_count_zero (d : Nat) : (descending d).count 0 = 0 := by
  induction d with
  | zero => rfl
  | succ d ih => simp [descending, List.count_cons, ih]

theorem descending_getLast (d : Nat) : (descending (d + 1)).getLast? = some 1 := by
  induction d with
  | zero => rfl
  | succ d ih =>
      show ((d + 2) :: (d + 1) :: descending d).getLast? = some 1
      rw [List.getLast?_cons_cons]
      exact ih

theorem statusCount_phase (s : Nat) : statusCount (controlar_semaforo s).1 = 0 := by
  match s with
  | 0 => decide
  | 1 => decide
  | 2 => decide
  | s + 3 => rfl

theorem blueHighCount_zero (s : Nat) : blueHighCount (controlar_semaforo s).1 = 0 := by
  match s with
  | 0 => decide
  | 1 => decide
  | 2 => decide
  | s + 3 => rfl

theorem statusCount_append (a b : List Ev) :
    statusCount (a ++ b) = statusCount a + statusCount b := by
  simp [statusCount, List.filter_append]

theorem phaseExecCount_append (a b : List Ev) :
    phaseExecCount (a ++ b) = phaseExecCount a + phaseExecCount b := by
  simp [phaseExecCount, List.filter_append]

theorem statusCount_iter (s : Nat) (es : List Ev) :
    statusCount (Ev.status s :: Ev.sleep 1000 :: es) = 1 + statusCount es := by
  simp [statusCount, List.filter]
  omega

theorem phaseExecCount_iter (s : Nat) (es : List Ev) :
    phaseExecCount (Ev.status s :: Ev.sleep 1000 :: es) = phaseExecCount es := by
  simp [phaseExecCount, List.filter]

theorem phaseExecCount_phase (s : Nat) (h : s < 3) :
    phaseExecCount (controlar_semaforo s).1 = 1 := by
  match s with
  | 0 => decide
  | 1 => decide
  | 2 => decide

theorem mainRun_state (n : Nat) : (mainRun n).2 = (n + 1) % 3 := by
  induction n with
  | zero => rfl
  | succ n ih =>
      show (controlar_semaforo (mainRun n).2).2.1 = (n + 2) % 3
      rw [ih]
      have h3 : (n + 1) % 3 = 0 ∨ (n + 1) % 3 = 1 ∨ (n + 1) % 3 = 2 := by omega
      rcases h3 with h | h | h <;> rw [h] <;> simp [controlar_semaforo] <;> omega

theorem mainRun_trace_succ (n : Nat) :
    (mainRun (n + 1)).1
      = (mainRun n).1 ++ Ev.status (mainRun n).2 :: Ev.sleep 1000
          :: (controlar_semaforo (mainRun n).2).1 := rfl

theorem mainRun_statusCount (n : Nat) : statusCount (mainRun n).1 = n := by
  induction n with
  | zero => decide
  | succ n ih =>
      rw [mainRun_trace_succ, statusCount_append, ih, statusCount_iter,
        statusCount_phase]

theorem mainRun_phaseExecCount (n : Nat) : phaseExecCount (mainRun n).1 = n + 1 := by
  induction n with
  | zero => decide
  | succ n ih =>
      rw [mainRun_trace_succ, phaseExecCount_append, ih, phaseExecCount_iter,
        phaseExecCount_phase ((mainRun n).2) (by rw [mainRun_state]; omega)]

theorem mainRun_length_lt (n : Nat) :
    (mainRun n).1.length < (mainRun (n + 1)).1.length := by
  rw [mainRun_trace_succ]
  simp [List.length_append]

/-! ### Claim theorems -/

/-- Claim C1: starting from the initial `estado = 0` (STOP), each call to
`controlar_semaforo` advances the phase by exactly one step of the cycle
STOP → CAUTION → GO → STOP: after `n` calls the phase is `n % 3`, so after
one call it is CAUTION, after two GO, after three STOP again, with no state
skipped or repeated, for every number of calls. -/
theorem phase_transition_law (n : Nat) :
    stateAfter 0 = STOP ∧ stateAfter n = n % 3
      ∧ stateAfter (n + 1) = (stateAfter n + 1) % 3 := by
  refine ⟨rfl, stateAfter_mod n, ?_⟩
  rw [stateAfter_mod, stateAfter_mod]
  omega

/-- Claim C2 counterexample: the CAUTION branch of `controlar_semaforo` does
NOT first deactivate all outputs.  Its first four commands immediately apply
the yellow pattern (red high, green high, blue low) and start the display
update; they are not the deactivation sequence, and the branch contains no
buzzer command at all, so it cannot disable the buzzer. -/
theorem caution_no_deactivation_cex :
    (controlar_semaforo CAUTION).1.take 4
        = [Ev.gpioPut Ch.R true, Ev.gpioPut Ch.G true, Ev.gpioPut Ch.B false,
           Ev.oledFill]
    ∧ (controlar_semaforo CAUTION).1.take 4 ≠ deactivateAll
    ∧ buzzerCmdCount (controlar_semaforo CAUTION).1 = 0 := by
  decide

/-- Claim C2 amended: only the STOP branch first deactivates all outputs
(three channels low, buzzer disabled) before applying its pattern; the
CAUTION and GO branches write their indicator patterns directly without a
prior deactivation (CAUTION issues no buzzer command; GO enables the buzzer
without a prior disable).  Each branch still writes all three LED channels,
so the settled indicator state is fully determined by the current phase
regardless of what the previous phase left behind. -/
theorem deactivation_only_in_stop_branch :
    (controlar_semaforo STOP).1.take 4 = deactivateAll
    ∧ (controlar_semaforo CAUTION).1.take 3
        = [Ev.gpioPut Ch.R true, Ev.gpioPut Ch.G true, Ev.gpioPut Ch.B false]
    ∧ (controlar_semaforo GO).1.take 4
        = [Ev.gpioPut Ch.R false, Ev.gpioPut Ch.G true, Ev.gpioPut Ch.B false,
           Ev.buzzerOn 300 300]
    ∧ buzzerCmdCount (controlar_semaforo CAUTION).1 = 0
    ∧ (∀ o : Outputs,
        ledTriple (applyEvs o (controlar_semaforo CAUTION).1) = indicator_pattern CAUTION)
    ∧ (∀ o : Outputs,
        ledTriple (applyEvs o (controlar_semaforo GO).1) = indicator_pattern GO) :=
  ⟨by decide, by decide, by decide, by decide,
   fun o => leds_phase1 o, fun o => leds_phase2 o⟩

/-- Claim C3: in every reachable run from the initial STOP state, the settled
buzzer output during the phase executed by call `n + 1` (which is
`stateAfter n`) is enabled exactly when that phase is GO; during STOP and
CAUTION the buzzer is disabled.  The CAUTION branch never writes the buzzer,
so this rests on STOP (which disables it) always preceding CAUTION. -/
theorem buzzer_active_iff_go (n : Nat) :
    (outputsAfter (n + 1)).buzzer = true ↔ stateAfter n = GO := by
  rw [buzzer_after, stateAfter_mod]
  simp only [GO, decide_eq_true_eq]
  omega

/-- Claim C4: the countdown loop for a duration `d` is exactly `d`
render-then-wait steps: it renders the strictly descending digits
`d, d-1, …, 1`, each render followed by exactly one `sleep_ms(1000)`; the
digit `0` is never rendered, the last rendered digit is `1` whenever
`0 < d`, and the instances `d = 3` and `d = 6` give `[3, 2, 1]` and
`[6, 5, 4, 3, 2, 1]`. -/
theorem countdown_sequencer_contract (d : Nat) :
    countdown d = ((descending d).map fun k => [Ev.printNum k, Ev.sleep 1000]).flatten
    ∧ rendered (countdown d) = descending d
    ∧ (rendered (countdown d)).length = d
    ∧ (rendered (countdown d)).count 0 = 0
    ∧ (0 < d → (rendered (countdown d)).getLast? = some 1)
    ∧ rendered (countdown 3) = [3, 2, 1]
    ∧ rendered (countdown 6) = [6, 5, 4, 3, 2, 1] := by
  refine ⟨countdown_eq_flatten d, rendered_countdown d, ?_, ?_, ?_, by decide, by decide⟩
  · rw [rendered_countdown]
    exact descending_length d
  · rw [rendered_countdown]
    exact descending_count_zero d
  · intro hd
    rw [rendered_countdown]
    obtain ⟨d', rfl⟩ : ∃ d', d = d' + 1 := ⟨d - 1, by omega⟩
    exact descending_getLast d'

/-- Claim C4 witness: the contract instantiated at the concrete duration 3,
discharging the positivity hypothesis there. -/
theorem countdown_sequencer_contract_witness :
    0 < 3 ∧ (rendered (countdown 3)).getLast? = some 1 :=
  ⟨by decide, (countdown_sequencer_contract 3).2.2.2.2.1 (by decide)⟩

/-- Claim C5 counterexample: one full cycle as driven by the main loop (the
three loop iterations after the startup call, which execute CAUTION, GO and
STOP once each) issues 15 one-second wait calls, not 12: the loop body adds
its own `sleep_ms(1000)` before each of the three `controlar_semaforo`
calls, on top of the 3 + 3 + 6 countdown ticks. -/
theorem full_cycle_wait_count_cex :
    waitCount ((mainRun 3).1) - waitCount ((mainRun 0).1) = 15
    ∧ waitCount ((mainRun 3).1) - waitCount ((mainRun 0).1) ≠ 12 := by
  decide

/-- Claim C5 amended: the three phase executions of a full cycle spend the
nominal 3 + 3 + 6 = 12 seconds in countdown ticks, but the main loop issues
one additional 1000 ms wait per iteration, so one full loop of the running
system issues 15 unit-wait calls in total (12 countdown ticks plus 3 loop
sleeps). -/
theorem cycle_wait_totals :
    waitCount (controlar_semaforo STOP).1 = 3
    ∧ waitCount (controlar_semaforo CAUTION).1 = 3
    ∧ waitCount (controlar_semaforo GO).1 = 6
    ∧ waitCount (controlar_semaforo STOP).1 + waitCount (controlar_semaforo CAUTION).1
        + waitCount (controlar_semaforo GO).1 = 12
    ∧ waitCount ((mainRun 3).1) - waitCount ((mainRun 0).1) = 15 := by
  decide

/-- Claim C6: six calls to `controlar_semaforo` from a fresh STOP start end
in the phases `[CAUTION, GO, STOP, CAUTION, GO, STOP]` respectively, and
render 3 + 6 + 3 + 3 + 6 + 3 = 24 digits on the countdown matrix in total. -/
theorem six_calls_scenario :
    [stateAfter 1, stateAfter 2, stateAfter 3, stateAfter 4, stateAfter 5, stateAfter 6]
      = [CAUTION, GO, STOP, CAUTION, GO, STOP]
    ∧ (rendered (callsTrace 6).1).length = 24 := by
  decide

/-- Claim C7: every state reachable from `estado = 0` by calls to
`controlar_semaforo` lies in {0, 1, 2}, so the `default` branch (which
returns `false`) is never taken and every call from a reachable state
returns `true`. -/
theorem default_branch_unreachable (n : Nat) :
    stateAfter n < 3 ∧ (controlar_semaforo (stateAfter n)).2.2 = true := by
  have h := stateAfter_mod n
  have h3 : stateAfter n = 0 ∨ stateAfter n = 1 ∨ stateAfter n = 2 := by omega
  refine ⟨by omega, ?_⟩
  rcases h3 with h' | h' | h' <;> rw [h'] <;> rfl

/-- Claim C8: `main` runs the first phase exactly once at startup, then each
loop iteration emits exactly one status line followed by exactly one phase
execution: after `n` iterations the trace holds `n` status lines and
`n + 1` completed phase executions (one per full phase duration, never one
per countdown second), and the trace grows strictly forever — the loop does
not terminate. -/
theorem main_loop_structure (n : Nat) :
    (mainRun 0).1 = (controlar_semaforo STOP).1
    ∧ statusCount (mainRun n).1 = n
    ∧ phaseExecCount (mainRun n).1 = n + 1
    ∧ (mainRun n).1.length < (mainRun (n + 1)).1.length :=
  ⟨rfl, mainRun_statusCount n, mainRun_phaseExecCount n, mainRun_length_lt n⟩

/-- Claim C9: the blue LED channel is driven low in every phase branch and is
never driven high (no branch, for any `estado`, contains a write of `true`
to channel B), and the settled indicator pattern of the phase executed by
call `n + 1` is exactly that phase's pattern: red only for STOP, red+green
for CAUTION, green only for GO — blue is off in every reachable settled
state. -/
theorem blue_channel_always_low (n : Nat) :
    (∀ s : Nat, blueHighCount (controlar_semaforo s).1 = 0)
    ∧ ledTriple (outputsAfter (n + 1)) = indicator_pattern (stateAfter n)
    ∧ (outputsAfter (n + 1)).ledB = false := by
  have hs := stateAfter_mod n
  have h3 : stateAfter n = 0 ∨ stateAfter n = 1 ∨ stateAfter n = 2 := by omega
  refine ⟨blueHighCount_zero, ?_⟩
  rw [outputsAfter_succ]
  rcases h3 with h | h | h <;> rw [h]
  · exact ⟨leds_phase0 _, ledB_phase0 _⟩
  · exact ⟨leds_phase1 _, ledB_phase1 _⟩
  · exact ⟨leds_phase2 _, ledB_phase2 _⟩

/-- Claim C10: the CAUTION branch of `controlar_semaforo` issues no buzzer
command at all — neither an enable nor a disable — so replaying its commands
leaves the buzzer output exactly as the previous phase left it, for every
starting output state. -/
theorem caution_buzzer_frame :
    buzzerCmdCount (controlar_semaforo CAUTION).1 = 0
    ∧ ∀ o : Outputs, (applyEvs o (controlar_semaforo CAUTION).1).buzzer = o.buzzer :=
  ⟨by decide, fun o => buzzer_phase1 o⟩
